import Mathlib

/-!
Shallow embedding of the client-side finished-goods synchronization cache of
the `dashboard-inventory-03` repository, together with theorems checking the
repository's specification against the code.

The embedded source files are:
* `src/lib/indexeddb.ts` — the `FinishedGoodsDB` class over IndexedDB
  (collections `finished_goods`, `categories`, `metadata`);
* `src/lib/idempiere-api.ts` — the remote fetch client
  (`fetchFinishedGoodsFromIDempiere`, `IDempiereAPIError`);
* `src/components/FinishedGoodsDataManager.tsx` — the lifecycle manager and
  sync entrypoint (`performInitialSync`, `handleUserStateChange`,
  `checkIfSyncNeeded`).

Modelling conventions:
* The persistent IndexedDB state is an explicit record `DBState`; the async
  methods of `FinishedGoodsDB` become pure functions on `DBState` (fallible
  ones return `Except String`).  IndexedDB `getAll` enumerates records in
  key order; the model keeps insertion order instead, and every theorem about
  `getAll` results is stated order-insensitively (lengths, memberships,
  permutations) so the difference is immaterial.
* JavaScript `Date` values are modelled as epoch milliseconds (`Int`);
  ISO timestamp strings are kept as `String` and `new Date(s).getTime()`
  becomes an abstract parameter `parseDate : String → Int`.
* JavaScript number arithmetic on time differences is exact in the modelled
  range, so the float comparison `timeDiff / (1000*60*60) > 1` is translated
  to the equivalent integer comparison `timeDiff > 3600000`.
* `String.prototype.toLowerCase` / `includes` are modelled per-character
  (`lowerString`, `strIncludes`); the data in this domain is ASCII.
-/

/-- JS per-character lowercasing, modelling `String.prototype.toLowerCase`. -/
def lowerString (s : String) : String := ⟨s.data.map Char.toLower⟩

/-- JS substring test `s.includes(sub)`: `sub` occurs contiguously in `s`. -/
def strIncludes (s sub : String) : Bool := decide (sub.data <:+: s.data)

/-- The `{propertyLabel, id, identifier, 'model-name'}` reference objects that
iDempiere embeds in each record (`AD_Client_ID`, `AD_Org_ID`,
`M_Product_Category_ID` in `interface FinishedGood`). -/
structure EntityReference where
  propertyLabel : String
  id : Int
  identifier : String
  model_name : String
deriving DecidableEq

/-- One product record, from `interface FinishedGood` in `src/lib/indexeddb.ts`.
`Weight` is a JS number; it is modelled as `Int` since no operation in the
core ever computes with it. The hyphenated JS field `'model-name'` is
rendered `model_name`. -/
structure FinishedGood where
  id : Int
  AD_Client_ID : EntityReference
  AD_Org_ID : EntityReference
  product_code : String
  product_name : String
  M_Product_Category_ID : EntityReference
  catname : String
  parent1 : String
  parent2 : String
  smalluom : String
  biguom : String
  Weight : Int
  catname_value : Int
  parent1_value : Int
  parent2_value : Int
  model_name : String
deriving DecidableEq

/-- The iDempiere response envelope, from `interface FinishedGoodsResponse`
in `src/lib/indexeddb.ts` (hyphenated JS fields renamed with underscores). -/
structure FinishedGoodsResponse where
  page_count : Int
  records_size : Int
  skip_records : Int
  row_count : Int
  array_count : Int
  records : List FinishedGood
deriving DecidableEq

/-- A derived category row, from `interface FinishedGoodCategory` in
`src/lib/indexeddb.ts`. -/
structure FinishedGoodCategory where
  id : Int
  name : String
  parent1 : String
  parent2 : String
  parent1_value : Int
  parent2_value : Int
  product_count : Nat
deriving DecidableEq

/-- The single `metadata` row `{key: 'last_sync', value, record_count}` written
by `storeFinishedGoods`; the fixed key is implicit in the model, `value` is the
ISO timestamp string. -/
structure SyncMetadata where
  value : String
  record_count : Nat
deriving DecidableEq

/-- The persistent contents of the three IndexedDB object stores
(`finished_goods`, `categories`, `metadata`) of `FinishedGoodsDB`.
`metadata` holds at most the singleton `last_sync` row. -/
structure DBState where
  finished_goods : List FinishedGood
  categories : List FinishedGoodCategory
  metadata : Option SyncMetadata
deriving DecidableEq

/-- The empty database, as created by `init`'s `onupgradeneeded` handler. -/
def emptyDB : DBState := { finished_goods := [], categories := [], metadata := none }

/-- The fresh category row `extractCategories` inserts on first sight of a
`catname_value`: `categoryMap.set(categoryId, {..., product_count: 0})`. -/
def newCategory (r : FinishedGood) : FinishedGoodCategory :=
  { id := r.catname_value
    name := r.catname
    parent1 := r.parent1
    parent2 := r.parent2
    parent1_value := r.parent1_value
    parent2_value := r.parent2_value
    product_count := 0 }

/-- The `category.product_count += 1` update on the map entry keyed by `x`
(a JS `Map` holds one entry per key; the model updates every row with id `x`,
which coincides on the nodup-id lists the fold produces). -/
def bumpCount (x : Int) (acc : List FinishedGoodCategory) : List FinishedGoodCategory :=
  acc.map fun c => if c.id = x then { c with product_count := c.product_count + 1 } else c

/-- One iteration of the `records.forEach` body of
`FinishedGoodsDB.extractCategories`: insert a zero-count row if the category
id is new, then increment that row's count. -/
def extractStep (acc : List FinishedGoodCategory) (r : FinishedGood) : List FinishedGoodCategory :=
  if acc.any (fun c => c.id == r.catname_value) then
    bumpCount r.catname_value acc
  else
    bumpCount r.catname_value (acc ++ [newCategory r])

/-- `FinishedGoodsDB.extractCategories`: group the records by `catname_value`
into category rows with member counts (JS `Map` insertion order becomes list
order). -/
def extractCategories (records : List FinishedGood) : List FinishedGoodCategory :=
  records.foldl extractStep []

/-- The `product_count` of the category row with id `x`, `0` if absent
(lookup in the derived `categories` collection, which is keyed by `id`). -/
def categoryCount (x : Int) (acc : List FinishedGoodCategory) : Nat :=
  match acc.find? (fun c => c.id == x) with
  | some c => c.product_count
  | none => 0

/-- `FinishedGoodsDB.storeFinishedGoods`: in one read-write transaction, clear
`finished_goods` and `categories`, `add` every record, `add` every derived
category, and `put` the `last_sync` metadata row
`{value: new Date().toISOString(), record_count: data.records.length}`
(`now` stands for the ISO timestamp).  IndexedDB `add` errors on a duplicate
primary key, which aborts the transaction and rejects the promise with
`'Failed to store data'`; `put` on `metadata` upserts, so it cannot fail this
way. -/
def storeFinishedGoods (_db : DBState) (now : String) (data : FinishedGoodsResponse) :
    Except String DBState :=
  if (data.records.map (·.id)).Nodup ∧
      ((extractCategories data.records).map (·.id)).Nodup then
    .ok { finished_goods := data.records
          categories := extractCategories data.records
          metadata := some { value := now, record_count := data.records.length } }
  else
    .error "Failed to store data"

/-- `FinishedGoodsDB.getFinishedGoods`: `getAll` on `finished_goods`. -/
def getFinishedGoods (db : DBState) : List FinishedGood := db.finished_goods

/-- `FinishedGoodsDB.getFinishedGoodsByCategory`: `getAll(categoryId)` on the
`catname_value` index of `finished_goods`. -/
def getFinishedGoodsByCategory (db : DBState) (categoryId : Int) : List FinishedGood :=
  db.finished_goods.filter (fun g => g.catname_value == categoryId)

/-- `FinishedGoodsDB.getCategories`: `getAll` on `categories`. -/
def getCategories (db : DBState) : List FinishedGoodCategory := db.categories

/-- The predicate a record must satisfy to be returned by
`searchFinishedGoods(term)`: its lowercased name or lowercased code contains
the lowercased term. -/
def matchesSearch (term : String) (g : FinishedGood) : Bool :=
  strIncludes (lowerString g.product_name) (lowerString term) ||
  strIncludes (lowerString g.product_code) (lowerString term)

/-- `FinishedGoodsDB.searchFinishedGoods`: read everything via
`getFinishedGoods`, then filter on lowercased name/code containment; a pure
read built on a pure read. -/
def searchFinishedGoods (db : DBState) (searchTerm : String) : List FinishedGood :=
  (getFinishedGoods db).filter (matchesSearch searchTerm)

/-- `FinishedGoodsDB.getSyncMetadata`: `get('last_sync')` on `metadata`,
`none` when the row is absent (the JS promise resolves `undefined`). -/
def getSyncMetadata (db : DBState) : Option SyncMetadata := db.metadata

/-- `FinishedGoodsDB.clearAllData`: one read-write transaction clearing all
three object stores.  `clear` succeeds on an empty (never populated) store,
so the model always returns the empty state. -/
def clearAllData (_db : DBState) : DBState := emptyDB

/-- The typed error of `src/lib/idempiere-api.ts` (`class IDempiereAPIError`):
a message plus an optional HTTP status.  The optional raw `response` payload
the JS class also stores is not consulted by any caller in the core and is
not modelled. -/
structure IDempiereAPIError where
  message : String
  status : Option Nat
deriving DecidableEq

/-- Shape of the JSON body of a 2xx response, as the validation code in
`fetchFinishedGoodsFromIDempiere` discriminates it: `!data` (null/undefined),
`typeof data !== 'object'`, `records` missing or not an array, or a proper
envelope with a records array. -/
inductive FetchPayload where
  | nullish
  | nonObject
  | recordsNotArray
  | wellFormed (resp : FinishedGoodsResponse)
deriving DecidableEq

/-- A JS `Error` as the catch block inspects it: its `name` (`'AbortError'`
for the 30-second `AbortSignal.timeout`) and its `message`. -/
structure JSError where
  name : String
  message : String
deriving DecidableEq

/-- Outcome of the single `fetch` round-trip inside
`fetchFinishedGoodsFromIDempiere`: a 2xx response with a parsed body, a
non-2xx response (with the `message`/`error` field of its JSON body when one
parsed to a truthy string), a rejection with a JS `Error`, or a rejection
with a non-`Error` value. -/
inductive FetchOutcome where
  | success (payload : FetchPayload)
  | httpError (status : Nat) (errBody : Option String)
  | failure (err : JSError)
  | nonErrorFailure
deriving DecidableEq

/-- Request configuration of the one `fetch` call in
`fetchFinishedGoodsFromIDempiere`: `method: 'GET'` with
`signal: AbortSignal.timeout(30000)`. -/
structure RequestConfig where
  method : String
  timeoutMs : Nat
deriving DecidableEq

/-- The request configuration the source passes to `fetch`. -/
def idempiereRequestConfig : RequestConfig := { method := "GET", timeoutMs := 30000 }

/-- JS falsiness of an optional env string: `undefined` or `''`. -/
def falsyEnv : Option String → Bool
  | none => true
  | some s => s.isEmpty

/-- The catch-block classification of a `fetch` rejection in
`fetchFinishedGoodsFromIDempiere`: `AbortError` becomes the timeout message,
a message containing `ENOTFOUND`/`ECONNREFUSED` becomes the network message,
anything else the generic unexpected-error message; none carries a status. -/
def classifyFetchFailure (err : JSError) : IDempiereAPIError :=
  if err.name == "AbortError" then
    { message := "Request timeout: iDempiere API did not respond within 30 seconds"
      status := none }
  else if strIncludes err.message "ENOTFOUND" || strIncludes err.message "ECONNREFUSED" then
    { message := "Network error: Cannot connect to iDempiere API. Please check the URL and network connection."
      status := none }
  else
    { message := "Unexpected error fetching from iDempiere: " ++ err.message
      status := none }

/-- `fetchFinishedGoodsFromIDempiere` of `src/lib/idempiere-api.ts`: fail with
status 500 when `NEXT_IDEMPIERE_URL` or `IDEMPIERE_TOKEN` is missing, issue
one GET (its runtime result is the `outcome` parameter), map a non-2xx
response to a server-error message carrying the HTTP status, validate that the
2xx body is an object whose `records` field is an array, and classify
rejections through `classifyFetchFailure`.  No branch retries the request. -/
def fetchFinishedGoodsFromIDempiere (idempiereUrl token : Option String)
    (outcome : FetchOutcome) : Except IDempiereAPIError FinishedGoodsResponse :=
  if falsyEnv idempiereUrl || falsyEnv token then
    .error { message := "Missing iDempiere configuration. Please check NEXT_IDEMPIERE_URL and IDEMPIERE_TOKEN environment variables."
             status := some 500 }
  else
    match outcome with
    | .success .nullish =>
        .error { message := "Invalid response format from iDempiere API", status := none }
    | .success .nonObject =>
        .error { message := "Invalid response format from iDempiere API", status := none }
    | .success .recordsNotArray =>
        .error { message := "Invalid response format: records field is not an array"
                 status := none }
    | .success (.wellFormed resp) => .ok resp
    | .httpError status errBody =>
        let fallback := "HTTP error! status: " ++ toString status
        .error { message := "Failed to fetch finished goods from iDempiere: " ++
                   errBody.getD fallback
                 status := some status }
    | .failure err => .error (classifyFetchFailure err)
    | .nonErrorFailure =>
        .error { message := "Unknown error occurred while fetching finished goods"
                 status := none }

/-- Number of `fetch` calls one invocation of
`fetchFinishedGoodsFromIDempiere` performs: the body contains exactly one
`fetch`, reached unless the configuration guard throws first; no catch branch
re-issues it. -/
def fetchCallsPerInvocation (idempiereUrl token : Option String) : Nat :=
  if falsyEnv idempiereUrl || falsyEnv token then 0 else 1

/-- The four non-null progress stages of `interface SyncProgress` in
`FinishedGoodsDataManager.tsx`. -/
inductive SyncStage where
  | fetching
  | storing
  | processing
  | complete
deriving DecidableEq

/-- One value passed to `setSyncProgress`: stage (`null` modelled as `none`),
human-readable message, completion percentage. -/
structure SyncProgress where
  stage : Option SyncStage
  message : String
  percentage : Nat
deriving DecidableEq

/-- The idle/reset progress value `{stage: null, message: '', percentage: 0}`. -/
def resetProgress : SyncProgress := { stage := none, message := "", percentage := 0 }

/-- The component state of `FinishedGoodsDataManager` that `performInitialSync`
touches: the `isInitializing` flag, the current `syncProgress`, and the
`error` message. -/
structure ManagerState where
  isInitializing : Bool
  progress : SyncProgress
  error : Option String
deriving DecidableEq

/-- Everything observable about one invocation of `performInitialSync`: the
successive `setSyncProgress` values in order (including the deferred reset
that hides the overlay after a success), how many API fetches and bulk stores
it issued, whether the `finishedGoodsSyncComplete` event was dispatched, and
the final component state. -/
structure SyncRun where
  trace : List SyncProgress
  fetchCalls : Nat
  storeCalls : Nat
  dispatchedSyncComplete : Bool
  final : ManagerState
deriving DecidableEq

/-- `performInitialSync` of `FinishedGoodsDataManager.tsx` as a function of
the pre-invocation component state, the auth flag, and the outcomes of its
three awaited steps (`finishedGoodsDB.init()`, `fetchFinishedGoodsClient()`,
`finishedGoodsDB.storeFinishedGoods(data)`).  The body reads none of the
previous progress state: its only guard is `if (!isSignedIn) return`.  On any
failure the catch block stores the error message (an `IDempiereAPIError`'s or
`Error`'s own message) and resets the progress; `isInitializing` stays `true`
so the overlay keeps showing the error.  On success the complete stage is
shown, the sync-complete event fires, and a deferred callback hides the
overlay and resets the progress. -/
def performInitialSync (prev : ManagerState) (isSignedIn : Bool)
    (initResult : Except String Unit)
    (fetchResult : Except IDempiereAPIError FinishedGoodsResponse)
    (storeResult : Except String Unit) : SyncRun :=
  if !isSignedIn then
    { trace := [], fetchCalls := 0, storeCalls := 0
      dispatchedSyncComplete := false, final := prev }
  else
    let p1 : SyncProgress :=
      { stage := some .fetching, message := "Initializing finished goods database..."
        percentage := 10 }
    match initResult with
    | .error e =>
        { trace := [p1, resetProgress], fetchCalls := 0, storeCalls := 0
          dispatchedSyncComplete := false
          final := { isInitializing := true, progress := resetProgress, error := some e } }
    | .ok _ =>
      let p2 : SyncProgress :=
        { stage := some .fetching, message := "Syncing latest data from iDempiere..."
          percentage := 30 }
      let p3 : SyncProgress :=
        { stage := some .fetching, message := "Fetching data from iDempiere API..."
          percentage := 40 }
      match fetchResult with
      | .error e =>
          { trace := [p1, p2, p3, resetProgress], fetchCalls := 1, storeCalls := 0
            dispatchedSyncComplete := false
            final := { isInitializing := true, progress := resetProgress
                       error := some e.message } }
      | .ok data =>
        let n := data.records.length
        let p4 : SyncProgress :=
          { stage := some .storing
            message := "Storing " ++ toString n ++ " products in local database..."
            percentage := 60 }
        match storeResult with
        | .error e =>
            { trace := [p1, p2, p3, p4, resetProgress], fetchCalls := 1, storeCalls := 1
              dispatchedSyncComplete := false
              final := { isInitializing := true, progress := resetProgress
                         error := some e } }
        | .ok _ =>
          let p5 : SyncProgress :=
            { stage := some .processing
              message := "Processing categories and finalizing..."
              percentage := 80 }
          let p6 : SyncProgress :=
            { stage := some .complete
              message := "Successfully synced " ++ toString n ++ " finished goods"
              percentage := 100 }
          { trace := [p1, p2, p3, p4, p5, p6, resetProgress]
            fetchCalls := 1, storeCalls := 1
            dispatchedSyncComplete := true
            final := { isInitializing := false, progress := resetProgress, error := none } }

/-- `checkIfSyncNeeded` of `FinishedGoodsDataManager.tsx`.  `metaResult` is
the combined outcome of `finishedGoodsDB.init()` followed by
`finishedGoodsDB.getSyncMetadata()`: an exception in either is the `.error`
case, which the catch block turns into `true` (assume a sync is needed).  A
missing row or a falsy (empty) `value` is also `true`.  Otherwise the float
test `hoursDiff > 1` with `hoursDiff = timeDiff/(1000*60*60)` is the exact
integer test `timeDiff > 3600000` on epoch milliseconds. -/
def checkIfSyncNeeded (parseDate : String → Int) (now : Int)
    (metaResult : Except String (Option SyncMetadata)) : Bool :=
  match metaResult with
  | .error _ => true
  | .ok none => true
  | .ok (some m) =>
      if m.value.isEmpty then true
      else decide (now - parseDate m.value > 3600000)

/-- The externally visible actions the `handleUserStateChange` effect body can
take, in program order. -/
inductive LifecycleEffect where
  | checkSyncNeeded
  | runInitialSync
  | resetUIState
  | clearAll
  | deleteDB
deriving DecidableEq

/-- `handleUserStateChange` of `FinishedGoodsDataManager.tsx` (with
`isMounted` true, i.e. the component still mounted): returns the actions the
handler performs plus the error it propagates to its caller.  Signed-in with a
user: run `checkIfSyncNeeded` and start `performInitialSync` exactly when it
returns `true`.  Loaded and signed out: reset the in-memory UI state, then
`clearAllData()`; if that rejects, fall back to `deleteDatabase()` inside a
nested try whose own failure is only logged.  Every failure is caught by a
surrounding try/catch that logs, so the handler never propagates an error. -/
def handleUserStateChange (isLoaded isSignedIn hasUser : Bool)
    (parseDate : String → Int) (now : Int)
    (metaResult : Except String (Option SyncMetadata))
    (clearFailure deleteFailure : Option String) :
    List LifecycleEffect × Option String :=
  if !isLoaded then ([], none)
  else if isSignedIn && hasUser then
    if checkIfSyncNeeded parseDate now metaResult then
      ([.checkSyncNeeded, .runInitialSync], none)
    else
      ([.checkSyncNeeded], none)
  else if !isSignedIn then
    match clearFailure with
    | none => ([.resetUIState, .clearAll], none)
    | some _ =>
      match deleteFailure with
      | none => ([.resetUIState, .clearAll, .deleteDB], none)
      | some _ => ([.resetUIState, .clearAll, .deleteDB], none)
  else ([], none)

/-- Sample client reference used by the concrete instances below. -/
def sampleClientRef : EntityReference :=
  { propertyLabel := "Client", id := 1000000, identifier := "MBA Sejahtera"
    model_name := "ad_client" }

/-- Sample organization reference used by the concrete instances below. -/
def sampleOrgRef : EntityReference :=
  { propertyLabel := "Organization", id := 1000001, identifier := "HO"
    model_name := "ad_org" }

/-- Sample product-category reference used by the concrete instances below. -/
def sampleCatRef : EntityReference :=
  { propertyLabel := "Product Category", id := 1000100, identifier := "Beras"
    model_name := "m_product_category" }

/-- A product whose name contains `BERAS`. -/
def goodBerasName : FinishedGood :=
  { id := 1001, AD_Client_ID := sampleClientRef, AD_Org_ID := sampleOrgRef
    product_code := "FG-0001", product_name := "BERAS MENIR SUPER 25KG"
    M_Product_Category_ID := sampleCatRef
    catname := "Beras", parent1 := "Finished Goods", parent2 := "All"
    smalluom := "KG", biguom := "SAK", Weight := 25
    catname_value := 1000100, parent1_value := 2000, parent2_value := 3000
    model_name := "vw_product_fg" }

/-- A product whose code contains `beras` while its name does not. -/
def goodBerasCode : FinishedGood :=
  { id := 1002, AD_Client_ID := sampleClientRef, AD_Org_ID := sampleOrgRef
    product_code := "beras-kw1-50", product_name := "MENIR WANGI 50KG"
    M_Product_Category_ID := sampleCatRef
    catname := "Beras", parent1 := "Finished Goods", parent2 := "All"
    smalluom := "KG", biguom := "SAK", Weight := 50
    catname_value := 1000100, parent1_value := 2000, parent2_value := 3000
    model_name := "vw_product_fg" }

/-- A product matching `beras` in neither name nor code. -/
def goodOther : FinishedGood :=
  { id := 1003, AD_Client_ID := sampleClientRef, AD_Org_ID := sampleOrgRef
    product_code := "GP-0003", product_name := "GULA PASIR 1KG"
    M_Product_Category_ID := sampleCatRef
    catname := "Gula", parent1 := "Finished Goods", parent2 := "All"
    smalluom := "KG", biguom := "SAK", Weight := 1
    catname_value := 1000200, parent1_value := 2000, parent2_value := 3000
    model_name := "vw_product_fg" }

/-- A concrete populated store used in the search example. -/
def sampleSearchDB : DBState :=
  { finished_goods := [goodBerasName, goodBerasCode, goodOther]
    categories := extractCategories [goodBerasName, goodBerasCode, goodOther]
    metadata := none }

/-- A concrete three-record iDempiere response with pairwise-distinct ids. -/
def sampleResponse : FinishedGoodsResponse :=
  { page_count := 1, records_size := 3, skip_records := 0, row_count := 3
    array_count := 3, records := [goodBerasName, goodBerasCode, goodOther] }

/-- A concrete `new Date(s).getTime()` interpretation used to instantiate the
freshness-policy theorem: one timestamp 30 minutes before epoch-time
10000000, the other 90 minutes before it. -/
def sampleParseDate : String → Int :=
  fun s => if s = "t30" then 10000000 - 30 * 60 * 1000 else 10000000 - 90 * 60 * 1000

lemma bumpCount_nil (x : Int) : bumpCount x [] = [] := rfl

lemma bumpCount_cons (x : Int) (c : FinishedGoodCategory) (rest : List FinishedGoodCategory) :
    bumpCount x (c :: rest) =
      (if c.id = x then { c with product_count := c.product_count + 1 } else c) ::
        bumpCount x rest := rfl

lemma bumpCount_map_id (x : Int) (acc : List FinishedGoodCategory) :
    (bumpCount x acc).map (·.id) = acc.map (·.id) := by
  induction acc with
  | nil => rfl
  | cons c rest ih =>
      rw [bumpCount_cons, List.map_cons, List.map_cons, ih]
      by_cases h : c.id = x <;> simp [h]

lemma categoryCount_nil (y : Int) : categoryCount y [] = 0 := rfl

lemma categoryCount_cons (y : Int) (c : FinishedGoodCategory)
    (rest : List FinishedGoodCategory) :
    categoryCount y (c :: rest) =
      if c.id = y then c.product_count else categoryCount y rest := by
  unfold categoryCount
  by_cases h : c.id = y
  · rw [List.find?_cons_of_pos _ (by simpa using h), if_pos h]
  · rw [List.find?_cons_of_neg _ (by simpa using h), if_neg h]

lemma categoryCount_eq_zero_of_not_any (y : Int) (acc : List FinishedGoodCategory)
    (h : acc.any (fun d => d.id == y) = false) : categoryCount y acc = 0 := by
  induction acc with
  | nil => rfl
  | cons a rest ih =>
      simp only [List.any_cons, Bool.or_eq_false_iff, beq_eq_false_iff_ne, ne_eq] at h
      rw [categoryCount_cons, if_neg h.1, ih]
      simpa using h.2

lemma categoryCount_append_single_ne (y : Int) (acc : List FinishedGoodCategory)
    (c : FinishedGoodCategory) (h : c.id ≠ y) :
    categoryCount y (acc ++ [c]) = categoryCount y acc := by
  induction acc with
  | nil => simp [categoryCount_cons, categoryCount_nil, h]
  | cons a rest ih =>
      rw [List.cons_append, categoryCount_cons, categoryCount_cons, ih]

lemma categoryCount_bumpCount (y x : Int) (acc : List FinishedGoodCategory) :
    categoryCount y (bumpCount x acc) =
      categoryCount y acc +
        (if y = x ∧ acc.any (fun c => c.id == x) = true then 1 else 0) := by
  induction acc with
  | nil => simp [bumpCount_nil, categoryCount_nil]
  | cons c rest ih =>
      rw [bumpCount_cons, categoryCount_cons, categoryCount_cons]
      by_cases hcx : c.id = x
      · simp only [if_pos hcx]
        by_cases hcy : c.id = y
        · have hyx : y = x := hcy ▸ hcx
          simp [hcy, hyx]
        · have hxy : ¬(y = x) := fun e => hcy (e ▸ hcx)
          simp [hcy, hxy, ih]
      · simp only [if_neg hcx]
        by_cases hcy : c.id = y
        · have hxy : ¬(y = x) := fun e => hcx ((e ▸ hcy : c.id = x))
          simp [hcy, hxy, ih]
        · simp [hcy, ih, List.any_cons, hcx]

lemma categoryCount_append_single_of_not_any (y : Int) (acc : List FinishedGoodCategory)
    (c : FinishedGoodCategory) (h : acc.any (fun d => d.id == y) = false) :
    categoryCount y (acc ++ [c]) = if c.id = y then c.product_count else 0 := by
  induction acc with
  | nil => simp [categoryCount_cons, categoryCount_nil]
  | cons a rest ih =>
      rw [List.any_cons, Bool.or_eq_false_iff] at h
      rw [List.cons_append, categoryCount_cons, if_neg (by simpa using h.1), ih h.2]

lemma categoryCount_extractStep (y : Int) (acc : List FinishedGoodCategory)
    (r : FinishedGood) :
    categoryCount y (extractStep acc r) =
      categoryCount y acc + (if r.catname_value = y then 1 else 0) := by
  unfold extractStep
  by_cases hany : acc.any (fun c => c.id == r.catname_value) = true
  · rw [if_pos hany, categoryCount_bumpCount]
    by_cases hyr : y = r.catname_value
    · simp [hyr, hany]
    · have h2 : ¬(r.catname_value = y) := fun e => hyr e.symm
      simp [hyr, h2]
  · rw [if_neg hany, categoryCount_bumpCount]
    have hany' : acc.any (fun c => c.id == r.catname_value) = false := by
      simpa using hany
    have hnew : ((acc ++ [newCategory r]).any fun c => c.id == r.catname_value) = true := by
      simp [List.any_append, newCategory]
    by_cases hyr : r.catname_value = y
    · subst hyr
      have hz : categoryCount r.catname_value acc = 0 :=
        categoryCount_eq_zero_of_not_any _ _ hany'
      rw [categoryCount_append_single_of_not_any _ _ _ hany']
      simp [newCategory, hnew, hz]
    · have hyr' : ¬(y = r.catname_value) := fun e => hyr e.symm
      have hne : (newCategory r).id ≠ y := by simpa [newCategory] using hyr
      rw [categoryCount_append_single_ne _ _ _ hne]
      simp [hyr, hyr']

lemma categoryCount_foldl (y : Int) (l : List FinishedGood)
    (acc : List FinishedGoodCategory) :
    categoryCount y (l.foldl extractStep acc) =
      categoryCount y acc + l.countP (fun r => r.catname_value == y) := by
  induction l generalizing acc with
  | nil => simp
  | cons r rest ih =>
      rw [List.foldl_cons, ih, categoryCount_extractStep, List.countP_cons]
      by_cases h : r.catname_value = y
      · simp [h]; omega
      · simp [h]

lemma extractStep_mem_id (acc : List FinishedGoodCategory) (r : FinishedGood) (x : Int) :
    x ∈ (extractStep acc r).map (·.id) ↔
      x ∈ acc.map (·.id) ∨ r.catname_value = x := by
  unfold extractStep
  by_cases h : acc.any (fun c => c.id == r.catname_value) = true
  · rw [if_pos h, bumpCount_map_id]
    simp only [List.any_eq_true, beq_iff_eq] at h
    obtain ⟨c, hc, hcx⟩ := h
    constructor
    · exact Or.inl
    · rintro (hx | rfl)
      · exact hx
      · exact List.mem_map.mpr ⟨c, hc, hcx⟩
  · rw [if_neg h, bumpCount_map_id, List.map_append]
    simp only [List.mem_append, List.map_cons, List.map_nil, List.mem_singleton,
      List.mem_cons, List.not_mem_nil, or_false]
    constructor
    · rintro (hx | hx)
      · exact Or.inl hx
      · exact Or.inr (by simpa [newCategory] using hx.symm)
    · rintro (hx | hx)
      · exact Or.inl hx
      · exact Or.inr (by simp [newCategory, hx])

lemma foldl_extractStep_mem_id (l : List FinishedGood) (acc : List FinishedGoodCategory)
    (x : Int) :
    x ∈ (l.foldl extractStep acc).map (·.id) ↔
      x ∈ acc.map (·.id) ∨ ∃ r ∈ l, r.catname_value = x := by
  induction l generalizing acc with
  | nil => simp
  | cons r rest ih =>
      rw [List.foldl_cons, ih, extractStep_mem_id]
      constructor
      · rintro ((hx | he) | ⟨s, hs, he⟩)
        · exact Or.inl hx
        · exact Or.inr ⟨r, List.mem_cons_self r rest, he⟩
        · exact Or.inr ⟨s, List.mem_cons_of_mem r hs, he⟩
      · rintro (hx | ⟨s, hs, he⟩)
        · exact Or.inl (Or.inl hx)
        · rcases List.mem_cons.mp hs with rfl | hs
          · exact Or.inl (Or.inr he)
          · exact Or.inr ⟨s, hs, he⟩

lemma extractStep_nodup_id (acc : List FinishedGoodCategory) (r : FinishedGood)
    (h : (acc.map (·.id)).Nodup) : ((extractStep acc r).map (·.id)).Nodup := by
  unfold extractStep
  by_cases hany : acc.any (fun c => c.id == r.catname_value) = true
  · rwa [if_pos hany, bumpCount_map_id]
  · rw [if_neg hany, bumpCount_map_id, List.map_append]
    simp only [List.any_eq_true, beq_iff_eq, not_exists, not_and] at hany
    refine List.Nodup.append h (List.nodup_singleton _) ?_
    intro a ha hb
    simp only [List.map_cons, List.map_nil, List.mem_singleton] at hb
    obtain ⟨c, hc, rfl⟩ := List.mem_map.mp ha
    exact hany c hc (by simpa [newCategory] using hb)

lemma extractCategories_nodup_id (records : List FinishedGood) :
    ((extractCategories records).map (·.id)).Nodup := by
  have main : ∀ (l : List FinishedGood) (acc : List FinishedGoodCategory),
      (acc.map (·.id)).Nodup → ((l.foldl extractStep acc).map (·.id)).Nodup := by
    intro l
    induction l with
    | nil => intro acc h; exact h
    | cons r rest ih => intro acc h; exact ih _ (extractStep_nodup_id _ _ h)
  exact main records [] List.nodup_nil

/-- C1: when the records of a response have pairwise-distinct ids,
`storeFinishedGoods(data)` resolves successfully, after which
`getFinishedGoods()` returns exactly the items of `data.records` (a
permutation: same count, same ids, order immaterial) and
`getSyncMetadata().record_count` equals `data.records.length`. -/
theorem C1_replaceAll_exact (db : DBState) (now : String) (data : FinishedGoodsResponse)
    (h : (data.records.map (·.id)).Nodup) :
    ∃ db', storeFinishedGoods db now data = .ok db' ∧
      (getFinishedGoods db').Perm data.records ∧
      (getFinishedGoods db').length = data.records.length ∧
      (getFinishedGoods db').map (·.id) = data.records.map (·.id) ∧
      (getSyncMetadata db').map (·.record_count) = some data.records.length := by
  have hok : storeFinishedGoods db now data =
      .ok { finished_goods := data.records
            categories := extractCategories data.records
            metadata := some { value := now, record_count := data.records.length } } := by
    unfold storeFinishedGoods
    rw [if_pos ⟨h, extractCategories_nodup_id data.records⟩]
  exact ⟨_, hok, List.Perm.refl _, rfl, rfl, rfl⟩

/-- C1 witness: the three-record sample response has distinct ids and the
replace-then-read contract holds for it concretely. -/
theorem C1_replaceAll_exact_witness :
    ∃ db', storeFinishedGoods emptyDB "2026-01-01T00:00:00.000Z" sampleResponse = .ok db' ∧
      (getFinishedGoods db').Perm sampleResponse.records ∧
      (getFinishedGoods db').length = sampleResponse.records.length ∧
      (getFinishedGoods db').map (·.id) = sampleResponse.records.map (·.id) ∧
      (getSyncMetadata db').map (·.record_count) = some sampleResponse.records.length :=
  C1_replaceAll_exact emptyDB "2026-01-01T00:00:00.000Z" sampleResponse (by decide)

/-- C4: for every product list, the derived category row for id `X` counts
exactly the products whose `catname_value` is `X`, the derived ids are
pairwise distinct, and the set of derived category ids equals the set of
`catname_value` values present in the list. -/
theorem C4_category_derivation (records : List FinishedGood) (X : Int) :
    categoryCount X (extractCategories records) =
        records.countP (fun r => r.catname_value == X) ∧
      ((extractCategories records).map (·.id)).Nodup ∧
      (X ∈ (extractCategories records).map (·.id) ↔
        X ∈ records.map (·.catname_value)) := by
  refine ⟨?_, extractCategories_nodup_id records, ?_⟩
  · rw [extractCategories, categoryCount_foldl, categoryCount_nil]
    exact Nat.zero_add _
  · rw [extractCategories, foldl_extractStep_mem_id]
    simp [List.mem_map]

/-- C5: after `clearAllData()` every read comes back empty: `getFinishedGoods`
is `[]`, `getFinishedGoodsByCategory` is `[]` for every category id, and
`getSyncMetadata` is the absent sentinel — for every prior store state,
including the never-populated `emptyDB`. -/
theorem C5_wipe_completeness (db : DBState) (c : Int) :
    getFinishedGoods (clearAllData db) = [] ∧
      getFinishedGoodsByCategory (clearAllData db) c = [] ∧
      getSyncMetadata (clearAllData db) = none := by
  exact ⟨rfl, rfl, rfl⟩

/-- C7: `searchFinishedGoods(term)` returns exactly the stored products whose
lowercased name or code contains the lowercased term — and concretely,
searching `"beras"` in the sample store returns the product named
`BERAS MENIR SUPER 25KG` and the product with code `beras-kw1-50`, excluding
the product that matches in neither field.  In the model the read is pure by
construction: it is `getFinishedGoods` followed by a filter, and no function
of the embedding returns a modified `DBState`. -/
theorem C7_search_semantics :
    (∀ (db : DBState) (term : String) (g : FinishedGood),
      g ∈ searchFinishedGoods db term ↔
        g ∈ getFinishedGoods db ∧
          (strIncludes (lowerString g.product_name) (lowerString term) = true ∨
           strIncludes (lowerString g.product_code) (lowerString term) = true)) ∧
    searchFinishedGoods sampleSearchDB "beras" = [goodBerasName, goodBerasCode] := by
  constructor
  · intro db term g
    simp [searchFinishedGoods, matchesSearch, List.mem_filter, Bool.or_eq_true]
  · decide

/-- C2 counterexample: with a sync already in the `fetching` stage (the
component state an in-flight `performInitialSync` shows after its 40%
update), invoking the entrypoint again while signed in issues another API
fetch — `fetchCalls = 1`, not `0` — so a second concurrent fetch/replace
cycle does start.  The claim that it never does is therefore false on the
code: `performInitialSync` has no reentrancy guard. -/
theorem C2_reentrancy_counterexample :
    (performInitialSync
      { isInitializing := true
        progress := { stage := some SyncStage.fetching
                      message := "Fetching data from iDempiere API..."
                      percentage := 40 }
        error := none }
      true (.ok ()) (.ok sampleResponse) (.ok ())).fetchCalls = 1 ∧
    (performInitialSync
      { isInitializing := true
        progress := { stage := some SyncStage.fetching
                      message := "Fetching data from iDempiere API..."
                      percentage := 40 }
        error := none }
      true (.ok ()) (.ok sampleResponse) (.ok ())).storeCalls = 1 := ⟨rfl, rfl⟩

/-- C2 amended: `performInitialSync`'s only guard is the signed-in check — it
reads none of the in-flight sync state.  Signed out it does nothing; signed
in with `init` succeeding it always issues exactly one fetch, whatever
stage a concurrent sync is in, so invocation during Fetching/Storing/
Processing starts a second concurrent fetch/replace cycle. -/
theorem C2_entrypoint_unguarded (prev : ManagerState)
    (fetchResult : Except IDempiereAPIError FinishedGoodsResponse)
    (storeResult : Except String Unit) :
    (performInitialSync prev true (.ok ()) fetchResult storeResult).fetchCalls = 1 ∧
    (∀ (prev2 : ManagerState) (i : Except String Unit)
        (f : Except IDempiereAPIError FinishedGoodsResponse) (s : Except String Unit),
      (performInitialSync prev2 false i f s).fetchCalls = 0) := by
  constructor
  · cases fetchResult with
    | error e => rfl
    | ok data => cases storeResult with
      | error e => rfl
      | ok u => rfl
  · intro prev2 i f s
    rfl

/-- C3: on the sign-in transition the handler runs the sync exactly when the
metadata is absent or strictly older than one hour: a last-sync timestamp 30
minutes old does not trigger `performInitialSync`, while a timestamp 90
minutes old, or no metadata row at all, does. -/
theorem C3_freshness_policy (parseDate : String → Int) (now : Int)
    (m30 m90 : SyncMetadata)
    (h30v : m30.value.isEmpty = false)
    (h30 : parseDate m30.value = now - 30 * 60 * 1000)
    (h90v : m90.value.isEmpty = false)
    (h90 : parseDate m90.value = now - 90 * 60 * 1000)
    (clearFailure deleteFailure : Option String) :
    LifecycleEffect.runInitialSync ∉
        (handleUserStateChange true true true parseDate now (.ok (some m30))
          clearFailure deleteFailure).1 ∧
    LifecycleEffect.runInitialSync ∈
        (handleUserStateChange true true true parseDate now (.ok (some m90))
          clearFailure deleteFailure).1 ∧
    LifecycleEffect.runInitialSync ∈
        (handleUserStateChange true true true parseDate now (.ok none)
          clearFailure deleteFailure).1 := by
  have c30 : checkIfSyncNeeded parseDate now (.ok (some m30)) = false := by
    simp only [checkIfSyncNeeded, h30v, Bool.false_eq_true, if_false, h30,
      decide_eq_false_iff_not, not_lt]
    omega
  have c90 : checkIfSyncNeeded parseDate now (.ok (some m90)) = true := by
    simp only [checkIfSyncNeeded, h90v, Bool.false_eq_true, if_false, h90,
      decide_eq_true_eq]
    omega
  refine ⟨?_, ?_, ?_⟩
  · simp [handleUserStateChange, c30]
  · simp [handleUserStateChange, c90]
  · simp [handleUserStateChange, checkIfSyncNeeded]

/-- C3 witness: at epoch-millisecond `now = 10000000` with the concrete
timestamp interpretation `sampleParseDate`, the 30-minute-old row skips the
sync while the 90-minute-old row and the absent row trigger it. -/
theorem C3_freshness_policy_witness :
    LifecycleEffect.runInitialSync ∉
        (handleUserStateChange true true true sampleParseDate 10000000
          (.ok (some { value := "t30", record_count := 7 })) none none).1 ∧
    LifecycleEffect.runInitialSync ∈
        (handleUserStateChange true true true sampleParseDate 10000000
          (.ok (some { value := "t90", record_count := 7 })) none none).1 ∧
    LifecycleEffect.runInitialSync ∈
        (handleUserStateChange true true true sampleParseDate 10000000
          (.ok none) none none).1 :=
  C3_freshness_policy sampleParseDate 10000000
    { value := "t30", record_count := 7 } { value := "t90", record_count := 7 }
    (by decide) (by decide) (by decide) (by decide) none none

/-- C6: whenever the loaded auth state is signed-out, the handler clears the
store; the database-deletion fallback runs exactly when `clearAllData`
rejects; and no error is ever propagated to the caller — in particular a
failure of the fallback itself is only logged. -/
theorem C6_signout_cleanup (hasUser : Bool) (parseDate : String → Int) (now : Int)
    (metaResult : Except String (Option SyncMetadata))
    (clearFailure deleteFailure : Option String) :
    LifecycleEffect.clearAll ∈
        (handleUserStateChange true false hasUser parseDate now metaResult
          clearFailure deleteFailure).1 ∧
    (LifecycleEffect.deleteDB ∈
        (handleUserStateChange true false hasUser parseDate now metaResult
          clearFailure deleteFailure).1 ↔ clearFailure.isSome) ∧
    (handleUserStateChange true false hasUser parseDate now metaResult
      clearFailure deleteFailure).2 = none := by
  cases clearFailure <;> cases deleteFailure <;>
    simp [handleUserStateChange]

/-- C10: if the freshness check cannot read the sync metadata (the
initialization/read promise chain rejects), `checkIfSyncNeeded` fails safe by
returning `true`, and the sign-in handler therefore triggers a fresh sync
rather than skipping it. -/
theorem C10_error_fails_safe (parseDate : String → Int) (now : Int) (e : String)
    (clearFailure deleteFailure : Option String) :
    checkIfSyncNeeded parseDate now (.error e) = true ∧
    LifecycleEffect.runInitialSync ∈
        (handleUserStateChange true true true parseDate now (.error e)
          clearFailure deleteFailure).1 := by
  refine ⟨rfl, ?_⟩
  simp [handleUserStateChange, checkIfSyncNeeded]

/-- C9: during a successful run of `performInitialSync`, the percentages the
progress callback emits over the stage transitions (the updates whose stage
is non-null, i.e. fetching through complete; the later overlay-hiding reset
has a null stage) are strictly increasing and end at 100 in the `complete`
stage. -/
theorem C9_progress_monotone (prev : ManagerState) (data : FinishedGoodsResponse) :
    List.Chain' (· < ·)
      (((performInitialSync prev true (.ok ()) (.ok data) (.ok ())).trace.filter
          fun p => p.stage.isSome).map (·.percentage)) ∧
    ((performInitialSync prev true (.ok ()) (.ok data) (.ok ())).trace.filter
        fun p => p.stage.isSome).getLast?.map (fun p => (p.stage, p.percentage)) =
      some (some SyncStage.complete, 100) := by
  constructor <;> simp [performInitialSync, resetProgress, List.filter]

lemma string_ne_of_head_ne {a b : String} (h : a.data.head? ≠ b.data.head?) : a ≠ b :=
  fun e => h (congrArg (fun s => s.data.head?) e)

lemma serverError_head (m : String) :
    ("Failed to fetch finished goods from iDempiere: " ++ m).data.head? = some 'F' := by
  rw [String.data_append]; rfl

/-- C8: the remote fetch call is configured with a 30-second timeout and
issues at most one request per invocation (no internal retry); missing
configuration, HTTP non-2xx, timeout, network failure, and a malformed
payload (`records` not an array) each fail with a typed `IDempiereAPIError`
whose status carries the HTTP status when one is available (the non-2xx case,
plus the hard-coded 500 on missing configuration) and whose messages are
pairwise distinct across the five failure classes. -/
theorem C8_fetch_error_contract (url token : Option String)
    (hu : falsyEnv url = false) (ht : falsyEnv token = false) :
    idempiereRequestConfig.timeoutMs = 30000 ∧
    (∀ u t, fetchCallsPerInvocation u t ≤ 1) ∧
    (∀ (u t : Option String) (out : FetchOutcome), (falsyEnv u || falsyEnv t) = true →
      fetchFinishedGoodsFromIDempiere u t out =
        .error { message := "Missing iDempiere configuration. Please check NEXT_IDEMPIERE_URL and IDEMPIERE_TOKEN environment variables."
                 status := some 500 }) ∧
    (∀ resp, fetchFinishedGoodsFromIDempiere url token (.success (.wellFormed resp)) =
      .ok resp) ∧
    (fetchFinishedGoodsFromIDempiere url token (.success .recordsNotArray) =
      .error { message := "Invalid response format: records field is not an array"
               status := none }) ∧
    (∀ (status : Nat) (errBody : Option String),
      fetchFinishedGoodsFromIDempiere url token (.httpError status errBody) =
        .error { message := "Failed to fetch finished goods from iDempiere: " ++
                   errBody.getD ("HTTP error! status: " ++ toString status)
                 status := some status }) ∧
    (∀ msg, fetchFinishedGoodsFromIDempiere url token (.failure { name := "AbortError", message := msg }) =
      .error { message := "Request timeout: iDempiere API did not respond within 30 seconds"
               status := none }) ∧
    (∀ err : JSError, err.name ≠ "AbortError" →
      (strIncludes err.message "ENOTFOUND" || strIncludes err.message "ECONNREFUSED") = true →
      fetchFinishedGoodsFromIDempiere url token (.failure err) =
        .error { message := "Network error: Cannot connect to iDempiere API. Please check the URL and network connection."
                 status := none }) ∧
    (∀ m : String, List.Pairwise (· ≠ ·)
      ["Missing iDempiere configuration. Please check NEXT_IDEMPIERE_URL and IDEMPIERE_TOKEN environment variables.",
       "Request timeout: iDempiere API did not respond within 30 seconds",
       "Network error: Cannot connect to iDempiere API. Please check the URL and network connection.",
       "Invalid response format: records field is not an array",
       "Failed to fetch finished goods from iDempiere: " ++ m]) := by
  have hguard : (falsyEnv url || falsyEnv token) = false := by
    rw [hu, ht]; rfl
  refine ⟨rfl, ?_, ?_, ?_, ?_, ?_, ?_, ?_, ?_⟩
  · intro u t
    unfold fetchCallsPerInvocation
    by_cases h : (falsyEnv u || falsyEnv t) = true <;> simp [h]
  · intro u t out h
    unfold fetchFinishedGoodsFromIDempiere
    rw [if_pos h]
  · intro resp
    unfold fetchFinishedGoodsFromIDempiere
    rw [if_neg (by simp [hguard])]
  · unfold fetchFinishedGoodsFromIDempiere
    rw [if_neg (by simp [hguard])]
  · intro status errBody
    unfold fetchFinishedGoodsFromIDempiere
    rw [if_neg (by simp [hguard])]
  · intro msg
    unfold fetchFinishedGoodsFromIDempiere classifyFetchFailure
    rw [if_neg (by simp [hguard])]
    simp
  · intro err hname hmsg
    unfold fetchFinishedGoodsFromIDempiere classifyFetchFailure
    rw [if_neg (by simp [hguard])]
    simp only [beq_iff_eq, hname, if_false, hmsg, if_true]
  · intro m
    have hF := serverError_head m
    refine List.pairwise_cons.mpr ⟨?_, List.pairwise_cons.mpr ⟨?_, List.pairwise_cons.mpr
      ⟨?_, List.pairwise_cons.mpr ⟨?_, List.pairwise_singleton _ _⟩⟩⟩⟩ <;>
      intro b hb <;> simp only [List.mem_cons, List.mem_singleton, List.not_mem_nil, or_false] at hb
    · rcases hb with rfl | rfl | rfl | rfl
      · decide
      · decide
      · decide
      · exact string_ne_of_head_ne (by rw [hF]; decide)
    · rcases hb with rfl | rfl | rfl
      · decide
      · decide
      · exact string_ne_of_head_ne (by rw [hF]; decide)
    · rcases hb with rfl | rfl
      · decide
      · exact string_ne_of_head_ne (by rw [hF]; decide)
    · rcases hb with rfl
      exact string_ne_of_head_ne (by rw [hF]; decide)

/-- C8 witness: the contract instantiated at a concrete configuration and at
concrete outcomes of each failure class. -/
theorem C8_fetch_error_contract_witness :
    fetchFinishedGoodsFromIDempiere none (some "tok") FetchOutcome.nonErrorFailure =
      .error { message := "Missing iDempiere configuration. Please check NEXT_IDEMPIERE_URL and IDEMPIERE_TOKEN environment variables."
               status := some 500 } ∧
    fetchFinishedGoodsFromIDempiere (some "http://erp.example.com") (some "tok")
        (.success .recordsNotArray) =
      .error { message := "Invalid response format: records field is not an array"
               status := none } ∧
    fetchFinishedGoodsFromIDempiere (some "http://erp.example.com") (some "tok")
        (.httpError 503 none) =
      .error { message := "Failed to fetch finished goods from iDempiere: HTTP error! status: 503"
               status := some 503 } ∧
    fetchFinishedGoodsFromIDempiere (some "http://erp.example.com") (some "tok")
        (.failure { name := "AbortError", message := "The operation was aborted" }) =
      .error { message := "Request timeout: iDempiere API did not respond within 30 seconds"
               status := none } ∧
    fetchFinishedGoodsFromIDempiere (some "http://erp.example.com") (some "tok")
        (.failure { name := "TypeError", message := "connect ECONNREFUSED 10.0.0.1:8443" }) =
      .error { message := "Network error: Cannot connect to iDempiere API. Please check the URL and network connection."
               status := none } := by
  have h := C8_fetch_error_contract (some "http://erp.example.com") (some "tok")
    (by decide) (by decide)
  refine ⟨h.2.2.1 none (some "tok") .nonErrorFailure (by decide),
    h.2.2.2.2.1, ?_, h.2.2.2.2.2.2.1 "The operation was aborted",
    h.2.2.2.2.2.2.2.1 { name := "TypeError", message := "connect ECONNREFUSED 10.0.0.1:8443" }
      (by decide) (by decide)⟩
  rw [h.2.2.2.2.2.1 503 none]
  rfl
